import Mathlib

/-!
Verification of the homework status bot (src/homework.py).

The script polls the Practicum API for homework status updates and forwards
them to a Telegram chat.  This file gives a shallow embedding of the script:
JSON-like values become the inductive `JVal`, Python exceptions become the
inductive `PyError`, each function of the script becomes a Lean function of
the same name, and the body of the `while True` loop in `main` becomes the
pure step function `runMainCycle` / `mainStep`.  Network and chat I/O are
modelled by explicit inputs (`HttpOutcome` for the HTTP layer, an attempt
oracle for the Telegram delivery loop).
-/

set_option autoImplicit false

namespace HomeworkBot

/-- A JSON-like Python value: strings, integers, lists, string-keyed
dictionaries (as association lists, first binding wins) and `None`. -/
inductive JVal where
  | str (s : String)
  | num (n : Int)
  | list (xs : List JVal)
  | dict (fields : List (String × JVal))
  | null

/-- Lookup of a key in a dictionary, first binding wins. -/
def lookupJ : List (String × JVal) → String → Option JVal
  | [], _ => none
  | (k, v) :: rest, key => if k = key then some v else lookupJ rest key

/-- Lookup in a string-to-string table (used for `HOMEWORK_VERDICTS.get`). -/
def lookupS : List (String × String) → String → Option String
  | [], _ => none
  | (k, v) :: rest, key => if k = key then some v else lookupS rest key

mutual

/-- Python `repr` of a `JVal`, used when values are interpolated inside
containers. -/
def pyRepr : JVal → String
  | .str s => "\x27" ++ s ++ "\x27"
  | .num n => toString n
  | .null => "None"
  | .list xs => "[" ++ pyReprList xs ++ "]"
  | .dict fs => "\x7b" ++ pyReprFields fs ++ "\x7d"

/-- Comma-separated `repr`s of list elements. -/
def pyReprList : List JVal → String
  | [] => ""
  | [x] => pyRepr x
  | x :: rest => pyRepr x ++ ", " ++ pyReprList rest

/-- Comma-separated `repr`s of dictionary entries. -/
def pyReprFields : List (String × JVal) → String
  | [] => ""
  | [(k, v)] => "\x27" ++ k ++ "\x27: " ++ pyRepr v
  | (k, v) :: rest => "\x27" ++ k ++ "\x27: " ++ pyRepr v ++ ", " ++ pyReprFields rest

end

/-- Python `str` of a `JVal`, as interpolated by an f-string. -/
def pyStr : JVal → String
  | .str s => s
  | v => pyRepr v

/-- The Python exceptions raised by the script.  All of these derive from
`Exception`; `SystemExit` is kept apart (it derives only from
`BaseException`) and is modelled directly in the cycle outcome. -/
inductive PyError where
  | valueError (msg : String)
  | typeError (msg : String)
  | keyError (msg : String)
  | assertionError (msg : String)
  | unboundLocalError (name : String)
deriving DecidableEq

/-- Membership of a string in a list of `JVal`s, as Python `in` over a list
compares with `==`: only equal strings match. -/
def jvalMemStr (key : String) : List JVal → Bool
  | [] => false
  | .str s :: rest => s == key || jvalMemStr key rest
  | _ :: rest => jvalMemStr key rest

/-- Python `key in v` for a string key: key test on dictionaries, element
test on lists, substring test on strings, `TypeError` on non-containers. -/
def pyContains (key : String) : JVal → Except PyError Bool
  | .dict fs => .ok ((lookupJ fs key).isSome)
  | .list xs => .ok (jvalMemStr key xs)
  | .str s => .ok (key == "" || decide ((s.splitOn key).length > 1))
  | .num _ => .error (.typeError "argument of type \x27int\x27 is not iterable")
  | .null => .error (.typeError "argument of type \x27NoneType\x27 is not iterable")

/-- Python `v[key]` for a string key: dictionary lookup (`KeyError` when the
key is absent), `TypeError` on any non-dictionary. -/
def pyGetItem (v : JVal) (key : String) : Except PyError JVal :=
  match v with
  | .dict fs =>
    match lookupJ fs key with
    | some x => .ok x
    | none => .error (.keyError key)
  | _ => .error (.typeError "subscript with a string key")

/-- The verdict table of homework.py, lines 28-32. -/
def HOMEWORK_VERDICTS : List (String × String) :=
  [("approved", "Работа проверена: ревьюеру всё понравилось. Ура!"),
   ("reviewing", "Работа взята на проверку ревьюером."),
   ("rejected", "Работа проверена: у ревьюера есть замечания.")]

/-- `HOMEWORK_VERDICTS.get(status)`: string keys are looked up in the table,
other hashable values miss (the table has only string keys), unhashable
values (lists, dictionaries) raise `TypeError` as in Python. -/
def verdictsGet : JVal → Except PyError (Option String)
  | .str s => .ok (lookupS HOMEWORK_VERDICTS s)
  | .num _ => .ok none
  | .null => .ok none
  | .list _ => .error (.typeError "unhashable type: \x27list\x27")
  | .dict _ => .error (.typeError "unhashable type: \x27dict\x27")

/-- `parse_status` (homework.py lines 105-121): requires the keys
`homework_name` and `status` (in that order, `ValueError` naming the first
absent one), looks the status up in `HOMEWORK_VERDICTS`, raises `ValueError`
on a falsy verdict (unknown status), otherwise returns the formatted
message. -/
def parse_status (homework : JVal) : Except PyError String :=
  match pyContains "homework_name" homework with
  | .error e => .error e
  | .ok hasName =>
    if !hasName then
      .error (.valueError "Отсутствует ключ \"homework_name\" в ответе API")
    else
      match pyContains "status" homework with
      | .error e => .error e
      | .ok hasStatus =>
        if !hasStatus then
          .error (.valueError "Отсутствует ключ \"status\" в ответе API")
        else
          match pyGetItem homework "homework_name", pyGetItem homework "status" with
          | .error e, _ => .error e
          | .ok _, .error e => .error e
          | .ok homework_name, .ok homework_status =>
            match verdictsGet homework_status with
            | .error e => .error e
            | .ok verdictOpt =>
              let verdict := verdictOpt.getD ""
              if verdict = "" then
                .error (.valueError ("Неизвестный статус работы \"" ++ pyStr homework_name
                  ++ "\": " ++ pyStr homework_status))
              else
                .ok ("Изменился статус проверки работы \"" ++ pyStr homework_name
                  ++ "\". " ++ verdict)

/-- `check_response` (homework.py lines 87-102): `TypeError` when the
response is not a dictionary, `KeyError` when the key `homeworks` is absent,
`TypeError` when its value is not a list (the source builds this second
message from a truncated string literal, hence the trailing space), and
success otherwise. -/
def check_response (response : JVal) : Except PyError Unit :=
  match response with
  | .dict fields =>
    match lookupJ fields "homeworks" with
    | none => .error (.keyError "Отсутствует ключ \"homeworks\" в ответе от API")
    | some v =>
      match v with
      | .list _ => .ok ()
      | _ => .error (.typeError "Данные для ключа \"homeworks\" ")
  | _ => .error (.typeError "Ответ от API должен быть представлен в виде словаря")

/-- The three environment values read at module load (homework.py lines
20-22); `none` models an unset variable. -/
structure Config where
  practicumToken : Option String
  telegramToken : Option String
  telegramChatId : Option String

/-- Python truthiness of an optional string: `None` and `""` are falsy. -/
def truthy : Option String → Bool
  | none => false
  | some s => !(s == "")

/-- `check_tokens` (homework.py lines 35-51): returns `none` when the check
passes, and `some (criticalLogMessage, exitCode)` when the process exits.
The branch that would name the missing variables (lines 44-48) is commented
out in the source; the active branch logs one fixed message and calls
`sys.exit(1)`. -/
def check_tokens (cfg : Config) : Option (String × Nat) :=
  if truthy cfg.practicumToken && truthy cfg.telegramToken && truthy cfg.telegramChatId then
    none
  else
    some ("Ошибка в переменных окружения", 1)

/-- The two exception classes named in the `except` clauses of
`get_api_answer`: `requests.exceptions.RequestException` and its subclass
`requests.exceptions.HTTPError`. -/
inductive ExcClass where
  | requestException
  | httpError
deriving DecidableEq

/-- Python subclass test between the two classes: `HTTPError` is a subclass
of `RequestException`, and each class is a subclass of itself. -/
def subclassOf : ExcClass → ExcClass → Bool
  | .httpError, .requestException => true
  | .httpError, .httpError => true
  | .requestException, .requestException => true
  | .requestException, .httpError => false

/-- Behaviour of the HTTP layer for one call of `requests.get`: either the
call itself raises a connection-level `RequestException` before any response
object exists, or it yields a response with a status code and a decoded JSON
body. -/
inductive HttpOutcome where
  | raised
  | response (status : Nat) (body : JVal)

/-- The local variables of `get_api_answer` visible to its handlers:
`response` is `none` while it is still unbound. -/
structure ApiLocals where
  response : Option (Nat × JVal)

/-- The `try` body of `get_api_answer` (homework.py lines 71-73):
`response = requests.get(...)` followed by `response.raise_for_status()`,
which raises `HTTPError` exactly on a client or server error status, that
is, exactly when `400 <= status_code < 600`; any other status (including
nonstandard ones such as 999) falls through.  Returns the local environment
after the body together with the class of the exception raised there, if
any. -/
def apiTryBody (net : HttpOutcome) : ApiLocals × Option ExcClass :=
  match net with
  | .raised => (⟨none⟩, some .requestException)
  | .response status body =>
    if 400 ≤ status ∧ status < 600 then (⟨some (status, body)⟩, some .httpError)
    else (⟨some (status, body)⟩, none)

/-- The `except` clauses of `get_api_answer` in source order (lines 74 and
77): first `RequestException`, then `HTTPError`. -/
def apiHandlers : List ExcClass := [.requestException, .httpError]

/-- Index of the first handler clause matching a raised exception class, as
Python dispatches `except` clauses top to bottom. -/
def firstHandler (raised : ExcClass) : List ExcClass → Option Nat
  | [] => none
  | c :: rest =>
    if subclassOf raised c then some 0
    else (firstHandler raised rest).map (fun n => n + 1)

/-- The body shared by both handlers of `get_api_answer`:
`return response.json()`, which raises `UnboundLocalError` when the local
`response` was never assigned. -/
def apiHandlerBody (locals : ApiLocals) : Except PyError JVal :=
  match locals.response with
  | none => .error (.unboundLocalError "response")
  | some (_, body) => .ok body

/-- `get_api_answer` (homework.py lines 65-84): run the `try` body, dispatch
a raised exception to the first matching handler (both handlers have the
same body `return response.json()`), and otherwise fall through to the
`status_code != 200` assertion and the final `return response.json()`. -/
def get_api_answer (net : HttpOutcome) : Except PyError JVal :=
  let r := apiTryBody net
  match r.2 with
  | some exc =>
    match firstHandler exc apiHandlers with
    | some _ => apiHandlerBody r.1
    | none => .error (.assertionError "unhandled exception")
  | none =>
    match r.1.response with
    | some (status, body) =>
      if status ≠ 200 then .error (.assertionError "Произошла ошибка при запросе API")
      else .ok body
    | none => .error (.unboundLocalError "response")

/-- The delivery retry loop of `main` (homework.py lines 138-142):
`while not send_message(bot, message): warn; time.sleep(RETRY_PERIOD)`.
`oracle i` tells whether the i-th delivery attempt for this message
succeeds; `fuel` bounds the unrolling of the source's unbounded loop.
Returns `some (i, s)` where `i` is the index of the successful attempt and
`s` the number of sleeps performed before it, or `none` when fuel runs out
before a success. -/
def sendRetryLoop (oracle : Nat → Bool) : Nat → Nat → Nat → Option (Nat × Nat)
  | 0, _, _ => none
  | fuel + 1, i, s =>
    if oracle i then some (i, s) else sendRetryLoop oracle fuel (i + 1) (s + 1)

/-- How one iteration of the `while True` loop of `main` ends. -/
inductive Outcome where
  | systemExit (msg : String)
  | nextCycle
  | returned (failMsg : String)
deriving DecidableEq

/-- How the `for homework in homeworks` loop of `main` ends: it falls
through, the `raise SystemExit` on line 143 fires, or an `Exception`
propagates out of it. -/
inductive RecOutcome where
  | completed
  | exited (msg : String)
  | raised (e : PyError)
deriving DecidableEq

/-- Python `str` of a raised exception, as interpolated by the f-string on
line 152 (`str` of a `KeyError` is the `repr` of its argument). -/
def errStr : PyError → String
  | .valueError m => m
  | .typeError m => m
  | .keyError m => "\x27" ++ m ++ "\x27"
  | .assertionError m => m
  | .unboundLocalError n =>
    "cannot access local variable \x27" ++ n
      ++ "\x27 where it is not associated with a value"

/-- The failure notification built on line 152 of homework.py. -/
def failText (e : PyError) : String := "Сбой в работе программы: " ++ errStr e

/-- The `for homework in homeworks` loop (homework.py lines 135-143), with a
notifier that always delivers (the retry loop on delivery failure is
modelled separately by `sendRetryLoop`).  A record without a `status` key is
skipped by the guard on line 136; for a record with one, `parse_status` runs
and its message is delivered, after which line 143 raises
`SystemExit('break')`. -/
def runRecords : List JVal → List String × RecOutcome
  | [] => ([], .completed)
  | hw :: rest =>
    match pyContains "status" hw with
    | .error e => ([], .raised e)
    | .ok false => runRecords rest
    | .ok true =>
      match parse_status hw with
      | .error e => ([], .raised e)
      | .ok msg => ([msg], .exited "break")

/-- The messages delivered to the chat during one loop iteration, in order,
and how the iteration ended. -/
structure CycleTrace where
  delivered : List String
  outcome : Outcome
deriving DecidableEq

/-- One iteration of the `while True` body of `main` (homework.py lines
130-155), given the result of `get_api_answer` and with a notifier that
always delivers.  `SystemExit` escapes both `except` clauses (it is not an
`Exception`), so it terminates the process; any `Exception` reaches the
handler on line 151, which sends the failure text and then `return`s,
terminating the loop. -/
def runMainCycle (apiResult : Except PyError JVal) : CycleTrace :=
  match apiResult with
  | .error e => ⟨[failText e], .returned (failText e)⟩
  | .ok response =>
    match check_response response with
    | .error e => ⟨[failText e], .returned (failText e)⟩
    | .ok _ =>
      let homeworks : List JVal :=
        match response with
        | .dict fields =>
          match lookupJ fields "homeworks" with
          | some (.list xs) => xs
          | _ => []
        | _ => []
      if homeworks.isEmpty then ⟨[], .nextCycle⟩
      else
        match runRecords homeworks with
        | (sent, .completed) => ⟨sent, .nextCycle⟩
        | (sent, .exited m) => ⟨sent, .systemExit m⟩
        | (sent, .raised e) => ⟨sent ++ [failText e], .returned (failText e)⟩

/-- One iteration of `main`'s loop together with the time cursor it passes
to the next iteration.  `timestamp` is bound once before the loop (line 128)
and never reassigned anywhere in the loop body (lines 129-155), so the next
iteration polls with the same value. -/
def mainStep (timestamp : Nat) (apiResult : Except PyError JVal) : CycleTrace × Nat :=
  (runMainCycle apiResult, timestamp)

/-- One iteration of `main`'s loop composed with the poller: the HTTP layer
behaviour determines `get_api_answer`'s result. -/
def mainStepNet (timestamp : Nat) (net : HttpOutcome) : CycleTrace × Nat :=
  mainStep timestamp (get_api_answer net)

/-- A well-formed record with the given name and the status `approved`. -/
def approvedRecord (name : String) : JVal :=
  .dict [("homework_name", .str name), ("status", .str "approved")]

/-- The message `parse_status` produces for an approved record. -/
def approvedMsg (name : String) : String :=
  "Изменился статус проверки работы \"" ++ name
    ++ "\". Работа проверена: ревьюеру всё понравилось. Ура!"

/-- A record carrying a status but no name field. -/
def noNameRecord : JVal := .dict [("status", .str "approved")]

/-- Whether `pat` is an initial segment of `s` (on character lists). -/
def takesLead (pat s : List Char) : Bool :=
  match pat, s with
  | [], _ => true
  | _ :: _, [] => false
  | p :: ps, c :: cs => p == c && takesLead ps cs

/-- Whether `pat` occurs contiguously inside a character list. -/
def hasSub (pat : List Char) : List Char → Bool
  | [] => takesLead pat []
  | c :: cs => takesLead pat (c :: cs) || hasSub pat cs

/-- Whether the string `pat` occurs as a substring of `s`. -/
def strContains (s pat : String) : Bool := hasSub pat.data s.data

/-- Records whose `status`-membership test is `false` are skipped by the
record loop, so any such block before the first status-bearing record does
not change its result. -/
theorem runRecords_skipAll (r : JVal) (rest : List JVal) (m : String)
    (hr : pyContains "status" r = .ok true) (hm : parse_status r = .ok m) :
    ∀ pre : List JVal, (∀ x ∈ pre, pyContains "status" x = .ok false) →
      runRecords (pre ++ r :: rest) = ([m], .exited "break") := by
  intro pre
  induction pre with
  | nil => intro _; simp [runRecords, hr, hm]
  | cons x xs ih =>
    intro hpre
    have hx : pyContains "status" x = .ok false := hpre x (List.mem_cons_self _ _)
    have hxs := ih (fun y hy => hpre y (List.mem_cons_of_mem _ hy))
    simp [runRecords, hx, hxs]

/-- If all attempts before index `K` fail and attempt `K` succeeds, the
retry loop started at attempt `i ≤ K` with enough fuel stops at attempt `K`
having added `K - i` sleeps. -/
theorem sendRetryLoop_succeeds (oracle : Nat → Bool) (K : Nat) (hsucc : oracle K = true) :
    ∀ fuel i s, (∀ j, i ≤ j → j < K → oracle j = false) → i ≤ K → K < i + fuel →
      sendRetryLoop oracle fuel i s = some (K, s + (K - i)) := by
  intro fuel
  induction fuel with
  | zero => intro i s _ _ hlt; omega
  | succ f ih =>
    intro i s hfail hle hlt
    by_cases hik : i = K
    · subst hik
      simp [sendRetryLoop, hsucc]
    · have hiK : i < K := lt_of_le_of_ne hle hik
      have hfi : oracle i = false := hfail i le_rfl hiK
      have hrec := ih (i + 1) (s + 1)
        (fun j hj hjK => hfail j (by omega) hjK) (by omega) (by omega)
      have harith : s + 1 + (K - (i + 1)) = s + (K - i) := by omega
      simp [sendRetryLoop, hfi, hrec, harith]

/-- Claim C1 counterexample: for the validated response whose `homeworks`
list holds two translatable records, the cycle does not deliver both
translated messages and does not proceed to the next cycle. -/
theorem C1_counterexample :
    (runMainCycle (.ok (.dict [("homeworks", .list [approvedRecord "A", approvedRecord "B"]),
        ("current_date", .num 1700000100)]))).delivered
      ≠ [approvedMsg "A", approvedMsg "B"]
    ∧ (runMainCycle (.ok (.dict [("homeworks", .list [approvedRecord "A", approvedRecord "B"]),
        ("current_date", .num 1700000100)]))).outcome ≠ Outcome.nextCycle := by
  decide

/-- Claim C1 (amended): for a validated response whose `homeworks` list is a
block of records without a `status` key followed by a record that
translates, the cycle delivers exactly that one translated message and then
terminates the process through the `SystemExit` raised on line 143, instead
of delivering later messages or proceeding to the next cycle. -/
theorem C1_first_message_then_exit
    (pre : List JVal) (r : JVal) (rest : List JVal)
    (fields : List (String × JVal)) (m : String)
    (hpre : ∀ x ∈ pre, pyContains "status" x = .ok false)
    (hr : pyContains "status" r = .ok true)
    (hm : parse_status r = .ok m)
    (hf : lookupJ fields "homeworks" = some (.list (pre ++ r :: rest))) :
    runMainCycle (.ok (.dict fields)) = ⟨[m], .systemExit "break"⟩ := by
  have hrec := runRecords_skipAll r rest m hr hm pre hpre
  have hne : (pre ++ r :: rest).isEmpty = false := by cases pre <;> rfl
  simp [runMainCycle, check_response, hf, hne, hrec]

/-- Claim C1 witness: a one-record batch delivers its message and exits. -/
theorem C1_first_message_then_exit_witness :
    runMainCycle (.ok (.dict [("homeworks", .list [approvedRecord "Task 1"])])) =
      ⟨[approvedMsg "Task 1"], .systemExit "break"⟩ :=
  C1_first_message_then_exit [] (approvedRecord "Task 1") []
    [("homeworks", .list [approvedRecord "Task 1"])] (approvedMsg "Task 1")
    (by intro x hx; cases hx) rfl rfl rfl

/-- Claim C2 counterexample: with cursor 1700000000 and a validated response
carrying `current_date = 1700000100`, the cursor passed to the next
iteration is not 1700000100. -/
theorem C2_counterexample :
    (mainStep 1700000000 (.ok (.dict [("homeworks", .list []),
      ("current_date", .num 1700000100)]))).2 ≠ 1700000100 := by
  decide

/-- Claim C2 (amended): the time cursor is never advanced at all: line 128
binds `timestamp` once before the loop and no statement of the loop body
reassigns it, so every iteration hands the unchanged cursor to the next one,
whatever the poll returned. -/
theorem C2_cursor_never_advanced (t : Nat) (apiResult : Except PyError JVal) :
    (mainStep t apiResult).2 = t := rfl

/-- Claim C3 counterexample: a record with both fields present and the
unknown status `mystery` makes `parse_status` raise `ValueError` instead of
returning a generic change notification. -/
theorem C3_counterexample :
    parse_status (.dict [("homework_name", .str "w"), ("status", .str "mystery")]) =
      .error (.valueError "Неизвестный статус работы \"w\": mystery") := rfl

/-- Claim C3 (amended): for a record with both fields present whose status
is a string outside the verdict table, translation fails with a `ValueError`
whose message embeds the raw status text; no generic notification is
produced. -/
theorem C3_unknown_status_raises
    (fs : List (String × JVal)) (nameV : JVal) (s : String)
    (hname : lookupJ fs "homework_name" = some nameV)
    (hstat : lookupJ fs "status" = some (.str s))
    (hunk : lookupS HOMEWORK_VERDICTS s = none) :
    parse_status (.dict fs) =
      .error (.valueError ("Неизвестный статус работы \"" ++ pyStr nameV ++ "\": " ++ s)) := by
  simp [parse_status, pyContains, pyGetItem, hname, hstat, verdictsGet, hunk, pyStr]

/-- Claim C3 witness: the unknown status `odd` raises the naming error. -/
theorem C3_unknown_status_raises_witness :
    parse_status (.dict [("homework_name", .str "Task 9"), ("status", .str "odd")]) =
      .error (.valueError ("Неизвестный статус работы \"" ++ pyStr (.str "Task 9")
        ++ "\": " ++ "odd")) :=
  C3_unknown_status_raises [("homework_name", .str "Task 9"), ("status", .str "odd")]
    (.str "Task 9") "odd" rfl rfl rfl

/-- Claim C4 counterexample: when the HTTP request raises before a response
exists, the iteration neither keeps the loop running nor leaves other state
untouched: it ends in the `return` of the `except Exception` handler and a
failure notification is sent to the chat. -/
theorem C4_counterexample :
    (mainStepNet 1700000000 .raised).1.outcome ≠ Outcome.nextCycle
    ∧ (mainStepNet 1700000000 .raised).1.delivered ≠ [] := by
  decide

/-- Claim C4 (amended): a connection-level poll failure is fatal: the
handler on line 76 trips over the unbound local `response`, the resulting
`UnboundLocalError` reaches `except Exception` in `main`, which sends the
failure text to the chat, sleeps and returns, terminating the loop; the
cursor is left unchanged. -/
theorem C4_transport_failure_terminates (t : Nat) :
    mainStepNet t .raised =
      (⟨[failText (.unboundLocalError "response")],
        .returned (failText (.unboundLocalError "response"))⟩, t) := rfl

/-- Claim C5 counterexample: on an HTTP 404 the poller does not fail: it
returns the decoded body of the failed response as if it were a result. -/
theorem C5_counterexample :
    get_api_answer (.response 404 (.dict [("error", .str "not found")])) =
      .ok (.dict [("error", .str "not found")]) := rfl

/-- Claim C5 (amended): the poller returns the decoded body on status 200;
on a 4xx/5xx status (400-599) `raise_for_status` raises `HTTPError`, the
first `except` clause catches it and returns the decoded body of the failed
response, masking the failure; on any other non-200 status (below 400 or at
600 and above) it raises `AssertionError`; and on a connection-level failure
it raises `UnboundLocalError` instead of a handled transport error. -/
theorem C5_poller_masks_http_errors (status : Nat) (body : JVal) :
    get_api_answer (.response status body) =
      (if 400 ≤ status ∧ status < 600 then .ok body
       else if status = 200 then .ok body
       else .error (.assertionError "Произошла ошибка при запросе API"))
    ∧ get_api_answer .raised = .error (.unboundLocalError "response") := by
  constructor
  · by_cases h4 : 400 ≤ status ∧ status < 600
    · simp [get_api_answer, apiTryBody, h4, firstHandler, apiHandlers, subclassOf,
        apiHandlerBody]
    · by_cases h2 : status = 200
      · simp [get_api_answer, apiTryBody, h4, h2]
      · simp [get_api_answer, apiTryBody, h4, h2]
  · rfl

/-- Claim C6 counterexample: in a batch holding a record that lacks its name
field followed by a translatable record, the cycle does not continue with
the rest of the batch: only the failure text is sent and the loop ends; the
second record's message is never delivered. -/
theorem C6_counterexample :
    runMainCycle (.ok (.dict [("homeworks", .list [noNameRecord, approvedRecord "B"])])) =
      ⟨[failText (.valueError "Отсутствует ключ \"homework_name\" в ответе API")],
       .returned (failText (.valueError "Отсутствует ключ \"homework_name\" в ответе API"))⟩
    ∧ approvedMsg "B" ∉
        [failText (.valueError "Отсутствует ключ \"homework_name\" в ответе API")] := by
  decide

/-- Claim C6 (amended): translation of a record that has a status but no
name fails with a `ValueError` naming the absent `homework_name` field, but
the controller does not skip just that record: the error escapes the record
loop into `except Exception`, which sends the failure text and terminates
the loop, dropping the remaining records of the batch; a record whose
`status`-membership test fails is instead skipped silently by the guard on
line 136. -/
theorem C6_missing_field_aborts_batch
    (fs : List (String × JVal)) (v : JVal) (rest : List JVal)
    (fields : List (String × JVal)) (r0 : JVal) (rs : List JVal)
    (hstat : lookupJ fs "status" = some v)
    (hname : lookupJ fs "homework_name" = none)
    (hf : lookupJ fields "homeworks" = some (.list (.dict fs :: rest)))
    (hskip : pyContains "status" r0 = .ok false) :
    parse_status (.dict fs) =
      .error (.valueError "Отсутствует ключ \"homework_name\" в ответе API")
    ∧ runMainCycle (.ok (.dict fields)) =
        ⟨[failText (.valueError "Отсутствует ключ \"homework_name\" в ответе API")],
         .returned (failText (.valueError "Отсутствует ключ \"homework_name\" в ответе API"))⟩
    ∧ runRecords (r0 :: rs) = runRecords rs := by
  have hp : parse_status (.dict fs) =
      .error (.valueError "Отсутствует ключ \"homework_name\" в ответе API") := by
    simp [parse_status, pyContains, hname]
  refine ⟨hp, ?_, ?_⟩
  · have hc : pyContains "status" (.dict fs) = .ok true := by simp [pyContains, hstat]
    have hrec : runRecords (.dict fs :: rest) =
        ([], .raised (.valueError "Отсутствует ключ \"homework_name\" в ответе API")) := by
      simp [runRecords, hc, hp]
    simp [runMainCycle, check_response, hf, hrec]
  · simp [runRecords, hskip]

/-- Claim C6 witness: a one-record batch missing its name aborts the cycle. -/
theorem C6_missing_field_aborts_batch_witness :
    parse_status noNameRecord =
      .error (.valueError "Отсутствует ключ \"homework_name\" в ответе API")
    ∧ runMainCycle (.ok (.dict [("homeworks", .list [noNameRecord])])) =
        ⟨[failText (.valueError "Отсутствует ключ \"homework_name\" в ответе API")],
         .returned (failText (.valueError "Отсутствует ключ \"homework_name\" в ответе API"))⟩
    ∧ runRecords [.dict []] = runRecords [] :=
  C6_missing_field_aborts_batch [("status", .str "approved")] (.str "approved") []
    [("homeworks", .list [noNameRecord])] (.dict []) [] rfl rfl rfl rfl

/-- Claim C7: if the delivery oracle fails on every attempt before `K` and
succeeds on attempt `K`, the retry loop of lines 138-142 issues exactly the
attempts `0 .. K` — that is, `K + 1` attempts — for the same message,
sleeping the fixed retry period after each of the `K` failures, and does not
reach the code after the loop before the message is delivered. -/
theorem C7_delivery_retry_attempts (oracle : Nat → Bool) (K fuel : Nat)
    (hfail : ∀ j, j < K → oracle j = false) (hsucc : oracle K = true)
    (hfuel : K < fuel) :
    sendRetryLoop oracle fuel 0 0 = some (K, K) := by
  have h := sendRetryLoop_succeeds oracle K hsucc fuel 0 0
    (fun j _ hj => hfail j hj) (Nat.zero_le K) (by omega)
  simpa using h

/-- Claim C7 witness: two failures then a success give three attempts and
two sleeps. -/
theorem C7_delivery_retry_attempts_witness :
    sendRetryLoop (fun i => decide (2 ≤ i)) 5 0 0 = some (2, 2) :=
  C7_delivery_retry_attempts (fun i => decide (2 ≤ i)) 2 5
    (by intro j hj; simp only [decide_eq_false_iff_not]; omega) (by rfl) (by omega)

/-- Claim C8: `check_response` succeeds exactly on dictionaries whose
`homeworks` key holds a list; it fails with the dictionary-shape `TypeError`
exactly on non-dictionaries, with the `KeyError` exactly when the key is
absent, and with the list-shape `TypeError` exactly when the key holds a
non-list — in every case independently of the individual records inside the
list, and as a pure check on its argument. -/
theorem C8_validator_classification (resp : JVal) :
    (check_response resp = .ok () ↔
      ∃ fields xs, resp = .dict fields ∧ lookupJ fields "homeworks" = some (.list xs))
    ∧ (check_response resp =
        .error (.typeError "Ответ от API должен быть представлен в виде словаря") ↔
      ∀ fields, resp ≠ .dict fields)
    ∧ (check_response resp =
        .error (.keyError "Отсутствует ключ \"homeworks\" в ответе от API") ↔
      ∃ fields, resp = .dict fields ∧ lookupJ fields "homeworks" = none)
    ∧ (check_response resp = .error (.typeError "Данные для ключа \"homeworks\" ") ↔
      ∃ fields v, resp = .dict fields ∧ lookupJ fields "homeworks" = some v
        ∧ ∀ xs, v ≠ .list xs) := by
  cases resp with
  | dict fields =>
    cases h : lookupJ fields "homeworks" with
    | none => refine ⟨?_, ?_, ?_, ?_⟩ <;> simp [check_response, h]
    | some v => cases v <;> (refine ⟨?_, ?_, ?_, ?_⟩ <;> simp [check_response, h])
  | str s => refine ⟨?_, ?_, ?_, ?_⟩ <;> simp [check_response]
  | num n => refine ⟨?_, ?_, ?_, ?_⟩ <;> simp [check_response]
  | list xs => refine ⟨?_, ?_, ?_, ?_⟩ <;> simp [check_response]
  | null => refine ⟨?_, ?_, ?_, ?_⟩ <;> simp [check_response]

/-- Claim C9 counterexample: with the API credential unset, the process does
exit with code 1, but its critical log line is a fixed message that does not
contain the name of the missing variable. -/
theorem C9_counterexample :
    check_tokens ⟨none, some "t", some "c"⟩ = some ("Ошибка в переменных окружения", 1)
    ∧ strContains "Ошибка в переменных окружения" "PRACTICUM_TOKEN" = false := by
  decide

/-- Claim C9 (amended): the startup gate passes exactly when all three
configuration values are present and non-empty; otherwise it logs one fixed
critical message — which does not name the missing values — and exits with
status 1 before the loop. -/
theorem C9_startup_gate (cfg : Config) :
    (check_tokens cfg = none ↔
      ((∃ p, cfg.practicumToken = some p ∧ p ≠ "")
        ∧ (∃ q, cfg.telegramToken = some q ∧ q ≠ "")
        ∧ (∃ r, cfg.telegramChatId = some r ∧ r ≠ "")))
    ∧ (check_tokens cfg = none
        ∨ check_tokens cfg = some ("Ошибка в переменных окружения", 1)) := by
  obtain ⟨p, q, r⟩ := cfg
  constructor
  · cases p <;> cases q <;> cases r <;> simp [check_tokens, truthy]
  · simp only [check_tokens]
    split
    · exact Or.inl rfl
    · exact Or.inr rfl

/-- Claim C10: when the HTTP request itself raises, the first `except`
clause of `get_api_answer` evaluates the never-assigned local `response`, so
the call raises `UnboundLocalError` instead of returning or raising the
handled transport error; and because `HTTPError` is a subclass of
`RequestException`, every raised exception is dispatched to the first
clause, so the second handler at index 1 is unreachable. -/
theorem C10_unbound_local_and_dead_handler :
    get_api_answer .raised = .error (.unboundLocalError "response")
    ∧ ∀ e : ExcClass, firstHandler e apiHandlers = some 0 := by
  refine ⟨rfl, ?_⟩
  intro e
  cases e <;> rfl

end HomeworkBot
